import Mathlib

/-!
Verification development for the lunalytics-operator reconciliation core.

The definitions below are a shallow embedding of the Python sources:
  src/utils/annotations.py, src/utils/url_builder.py, src/utils/retry.py,
  src/config.py, src/lunalytics/models.py, src/lunalytics/client.py,
  src/handlers/ingress.py, src/handlers/service.py, src/handlers/monitor_crd.py.

Python dictionaries whose value sets are heterogeneous are embedded as
association lists over a small value variant `PyVal`; Python truthiness is
made explicit wherever the source relies on it.  External collaborators
(the Lunalytics HTTP API and the Kubernetes patch primitives) are embedded
as explicit inputs: `ExtWorld` fixes the answers the external monitor API
would give, and the calls a handler issues are returned as data.
-/

/-- Heterogeneous Python value as it occurs in the monitor-config dicts. -/
inductive PyVal where
  | vStr (s : String)
  | vInt (n : Int)
  | vList (l : List String)
deriving DecidableEq, Repr

/-- Python dict with string keys, as an insertion-ordered association list. -/
abbrev PyDict := List (String × PyVal)

/-- Lookup of the first binding of a key (Python `d.get(k)`). -/
def dictGet {α : Type} (d : List (String × α)) (k : String) : Option α :=
  match d with
  | [] => none
  | (k1, v) :: rest => if k1 = k then some v else dictGet rest k

/-- Python `d[k] = v`: replace the binding if the key exists, else append. -/
def dictSet {α : Type} (d : List (String × α)) (k : String) (v : α) :
    List (String × α) :=
  match d with
  | [] => [(k, v)]
  | (k1, v1) :: rest =>
    if k1 = k then (k, v) :: rest else (k1, v1) :: dictSet rest k v

/-- Python `d.update(upd)`: key-wise overwrite of `d` by `upd`. -/
def dictUpdate {α : Type} (d upd : List (String × α)) : List (String × α) :=
  upd.foldl (fun acc kv => dictSet acc kv.1 kv.2) d

/-- Key-wise removal, embedding the comprehension that drops one key. -/
def dictDrop {α : Type} (d : List (String × α)) (k : String) :
    List (String × α) :=
  d.filter (fun kv => kv.1 ≠ k)

/-- Python truthiness of an optional dict value. -/
def truthy : Option PyVal → Bool
  | none => false
  | some (.vStr s) => s ≠ ""
  | some (.vInt n) => n ≠ 0
  | some (.vList l) => l ≠ []

/-- Python truthiness of an optional string. -/
def truthyOptStr : Option String → Bool
  | none => false
  | some s => s ≠ ""

/-- Collapse a Python-falsy optional string to `none`. -/
def optStrTruthy : Option String → Option String
  | none => none
  | some s => if s = "" then none else some s

/-- Extract a string value from a dict, `none` when absent or not a string. -/
def cfgGetStr (d : PyDict) (k : String) : Option String :=
  match dictGet d k with
  | some (.vStr s) => some s
  | _ => none

/-- ASCII lowercasing, kernel-computable stand-in for Python `str.lower()`. -/
def strLower (s : String) : String :=
  String.mk (s.toList.map Char.toLower)

/-- ASCII uppercasing, kernel-computable stand-in for Python `str.upper()`. -/
def strUpper (s : String) : String :=
  String.mk (s.toList.map Char.toUpper)

/-- Whitespace trimming on both ends (Python `str.strip()`). -/
def listTrim (l : List Char) : List Char :=
  ((l.dropWhile Char.isWhitespace).reverse.dropWhile Char.isWhitespace).reverse

/-- Python `str.strip()`. -/
def strStrip (s : String) : String :=
  String.mk (listTrim s.toList)

/-- Python `str.split(sep)` with a one-character separator. -/
def splitOnChar (sep : Char) : List Char → List (List Char)
  | [] => [[]]
  | c :: rest =>
    let r := splitOnChar sep rest
    if c = sep then [] :: r
    else
      match r with
      | [] => [[c]]
      | h :: t => (c :: h) :: t

/-- Python `s.split(sep)` on strings. -/
def strSplit (s : String) (sep : Char) : List String :=
  (splitOnChar sep s.toList).map String.mk

/-- Python `int(s)` on a stripped decimal string with an optional sign. -/
def parsePyInt (s : String) : Option Int :=
  let core : List Char → Option Nat := fun digits =>
    if digits = [] then none
    else if digits.all Char.isDigit then
      some (digits.foldl (fun acc c => acc * 10 + (c.toNat - 48)) 0)
    else none
  match listTrim s.toList with
  | '-' :: rest => (core rest).map (fun n => -(n : Int))
  | '+' :: rest => (core rest).map (fun n => (n : Int))
  | l => (core l).map (fun n => (n : Int))

/-- Substring containment over character lists (Python `sub in s`). -/
def listContainsSub (sub : List Char) : List Char → Bool
  | [] => sub.isEmpty
  | c :: rest => sub.isPrefixOf (c :: rest) || listContainsSub sub rest

/-- Python `sub in s` on strings. -/
def strContainsSub (s sub : String) : Bool :=
  listContainsSub sub.toList s.toList

/-- Python `str.title()` restricted to a single lowercase word, as used on
the literal kind tags "ingress" and "service". -/
def strTitle (s : String) : String :=
  match s.toList with
  | [] => ""
  | c :: rest => String.mk (c.toUpper :: rest)

/-- The regex `\d{3}(-\d{3})?` anchored on both sides, from
`validate_monitor_config` and the pydantic status-code validators. -/
def statusCodeOk (s : String) : Bool :=
  match s.toList with
  | [a, b, c] => a.isDigit && b.isDigit && c.isDigit
  | [a, b, c, d, e, f, g] =>
    a.isDigit && b.isDigit && c.isDigit && d = '-' &&
      e.isDigit && f.isDigit && g.isDigit
  | _ => false

/-! ### URL builder (src/utils/url_builder.py) -/

/-- One entry of `rules[i].http.paths` of an Ingress spec. -/
structure HttpPath where
  path : Option String
deriving DecidableEq, Repr

/-- One entry of `rules` of an Ingress spec; `httpPaths` flattens
`rule.http.paths` with `rule.get('http', {}).get('paths', [])`. -/
structure IngressRule where
  host : Option String
  httpPaths : List HttpPath
deriving DecidableEq, Repr

/-- The part of an Ingress spec read by `build_ingress_url`; each element of
`tls` stands for one declared TLS block. -/
structure IngressSpec where
  rules : List IngressRule
  tls : List Unit
deriving DecidableEq, Repr

/-- One entry of `spec.ports` of a Service. -/
structure ServicePort where
  port : Option Int
  portName : Option String
  protocol : Option String
deriving DecidableEq, Repr

/-- The part of a Service spec read by `build_service_url`. -/
structure ServiceSpec where
  ports : List ServicePort
deriving DecidableEq, Repr

/-- `build_ingress_url` (url_builder.py lines 11-55): first rule, first HTTP
path, path defaulting to "/", protocol https iff any TLS block; Python
falsiness of a missing or empty host yields `none`. -/
def build_ingress_url (s : IngressSpec) : Option String :=
  match s.rules with
  | [] => none
  | firstRule :: _ =>
    match firstRule.host with
    | none => none
    | some host =>
      if host = "" then none
      else
        match firstRule.httpPaths with
        | [] => none
        | firstPath :: _ =>
          let path := firstPath.path.getD "/"
          let protocol := if s.tls.isEmpty then "http" else "https"
          some (protocol ++ "://" ++ host ++ path)

/-- `build_service_url` (url_builder.py lines 58-102): first port, https iff
the lowercased port name contains "https", "ssl" or "tls"; a missing or
zero port number is Python-falsy and yields `none`. -/
def build_service_url (s : ServiceSpec) (serviceName ns : String) :
    Option String :=
  match s.ports with
  | [] => none
  | firstPort :: _ =>
    match firstPort.port with
    | none => none
    | some port =>
      if port = 0 then none
      else
        let portName := strLower (firstPort.portName.getD "")
        let protocol :=
          if strContainsSub portName "https" || strContainsSub portName "ssl"
              || strContainsSub portName "tls" then "https"
          else if strLower (firstPort.protocol.getD "") = "tcp" then "http"
          else "http"
        some (protocol ++ "://" ++ serviceName ++ "." ++ ns ++
          ".svc.cluster.local:" ++ toString port ++ "/")

/-- The network spec of an annotation-driven resource. -/
inductive ResourceSpec where
  | ingress (s : IngressSpec)
  | service (s : ServiceSpec)
deriving DecidableEq, Repr

/-- `build_monitor_url` (url_builder.py lines 105-137): a truthy explicit
URL wins, otherwise dispatch on the resource kind. -/
def build_monitor_url (rs : ResourceSpec) (resourceName ns : String)
    (explicitUrl : Option String) : Option String :=
  if truthyOptStr explicitUrl then explicitUrl
  else
    match rs with
    | .ingress s => build_ingress_url s
    | .service s => build_service_url s resourceName ns

example :
    build_ingress_url
      ⟨[⟨some "example.com", [⟨some "/healthz"⟩]⟩], []⟩ =
      some "http://example.com/healthz" := by decide

example :
    build_ingress_url
      ⟨[⟨some "example.com", [⟨some "/healthz"⟩]⟩], [()]⟩ =
      some "https://example.com/healthz" := by decide

example :
    build_service_url ⟨[⟨some 8080, none, some "TCP"⟩]⟩ "api" "prod" =
      some "http://api.prod.svc.cluster.local:8080/" := by decide

/-! ### Annotation utilities (src/utils/annotations.py) -/

/-- Annotation key `lunalytics.io/enabled`. -/
def kEnabled : String := "lunalytics.io/enabled"

/-- Annotation key `lunalytics.io/name`. -/
def kName : String := "lunalytics.io/name"

/-- Annotation key `lunalytics.io/url`. -/
def kUrl : String := "lunalytics.io/url"

/-- Annotation key `lunalytics.io/interval`. -/
def kInterval : String := "lunalytics.io/interval"

/-- Annotation key `lunalytics.io/retry-interval`. -/
def kRetryInterval : String := "lunalytics.io/retry-interval"

/-- Annotation key `lunalytics.io/request-timeout`. -/
def kRequestTimeout : String := "lunalytics.io/request-timeout"

/-- Annotation key `lunalytics.io/method`. -/
def kMethod : String := "lunalytics.io/method"

/-- Annotation key `lunalytics.io/valid-status-codes`. -/
def kStatusCodes : String := "lunalytics.io/valid-status-codes"

/-- Annotation key `lunalytics.io/monitor-id`, the stored binding. -/
def kMonitorId : String := "lunalytics.io/monitor-id"

/-- The annotation map of a resource. -/
abbrev AnnMap := List (String × String)

/-- `is_monitoring_enabled` (annotations.py line 28). -/
def is_monitoring_enabled (anns : AnnMap) : Bool :=
  strLower ((dictGet anns kEnabled).getD "") = "true"

/-- `get_monitor_name` (annotations.py line 41): a truthy name annotation
wins, else the generated default `kind/resource-name`. -/
def get_monitor_name (anns : AnnMap) (resourceName resourceKind : String) :
    String :=
  match optStrTruthy (dictGet anns kName) with
  | some n => n
  | none => resourceKind ++ "/" ++ resourceName

/-- `get_monitor_config_from_annotations` (annotations.py line 61): each
recognized key maps to one field; numeric annotations that fail to parse
are dropped; the status-codes annotation is split on "," and stripped. -/
def get_monitor_config_from_annotations (anns : AnnMap) : PyDict :=
  let d : PyDict := []
  let d := match optStrTruthy (dictGet anns kUrl) with
    | some u => dictSet d "url" (.vStr u)
    | none => d
  let d := match optStrTruthy (dictGet anns kInterval) with
    | some s =>
      match parsePyInt s with
      | some n => dictSet d "interval" (.vInt n)
      | none => d
    | none => d
  let d := match optStrTruthy (dictGet anns kRetryInterval) with
    | some s =>
      match parsePyInt s with
      | some n => dictSet d "retry_interval" (.vInt n)
      | none => d
    | none => d
  let d := match optStrTruthy (dictGet anns kRequestTimeout) with
    | some s =>
      match parsePyInt s with
      | some n => dictSet d "request_timeout" (.vInt n)
      | none => d
    | none => d
  let d := match optStrTruthy (dictGet anns kMethod) with
    | some s => dictSet d "method" (.vStr (strUpper s))
    | none => d
  let d := match optStrTruthy (dictGet anns kStatusCodes) with
    | some s =>
      dictSet d "valid_status_codes"
        (.vList ((strSplit s ',').map strStrip))
    | none => d
  d

/-- `get_monitor_id_from_annotations` (annotations.py line 110). -/
def get_monitor_id_from_annotations (anns : AnnMap) : Option String :=
  dictGet anns kMonitorId

/-- `create_monitor_id_annotation` (annotations.py line 123), renamed. -/
def create_monitor_id_ann (monitorId : String) : AnnMap :=
  [(kMonitorId, monitorId)]

/-- `merge_with_defaults` (annotations.py line 136): defaults overlaid by the
values from the annotations, key-wise (Python `dict.update`). -/
def merge_with_defaults (monitorDefaults annCfg : PyDict) : PyDict :=
  dictUpdate monitorDefaults annCfg

/-- The allowed HTTP verbs of `validate_monitor_config` and the pydantic
method regex. -/
def valid_methods : List String :=
  ["GET", "POST", "PUT", "DELETE", "PATCH", "HEAD", "OPTIONS"]

/-- `validate_monitor_config` (annotations.py line 155), error strings and
order as in the source. -/
def validate_monitor_config (d : PyDict) : List String :=
  let urlErrs := if truthy (dictGet d "url") then [] else ["URL is required"]
  let nameErrs := if truthy (dictGet d "name") then [] else ["Name is required"]
  let numErr : String → List String := fun f =>
    match dictGet d f with
    | none => []
    | some (.vInt n) =>
      if n < 1 then [f ++ " must be a positive integer"] else []
    | some _ => [f ++ " must be a positive integer"]
  let methodStr :=
    strUpper (match dictGet d "method" with | some (.vStr s) => s | _ => "")
  let methodErrs :=
    if methodStr ≠ "" ∧ methodStr ∉ valid_methods then
      ["method must be one of: GET, POST, PUT, DELETE, PATCH, HEAD, OPTIONS"]
    else []
  let codes := match dictGet d "valid_status_codes" with
    | some (.vList l) => l
    | _ => []
  let codeErrs :=
    (codes.filter (fun c => ¬ statusCodeOk c)).map
      (fun c => "Invalid status code format: " ++ c)
  urlErrs ++ nameErrs ++ numErr "interval" ++ numErr "retry_interval" ++
    numErr "request_timeout" ++ methodErrs ++ codeErrs

/-! ### Configuration (src/config.py) -/

/-- The namespace-filter configuration (config.py `namespace_filter`).
The strategy is kept as a string so that unknown strategies fail closed,
as in the source. -/
structure NsFilter where
  strategy : String
  namespaces : List String
  annKey : String
  annValue : String
deriving DecidableEq, Repr

/-- `Config.is_namespace_monitored` (config.py lines 205-226).  The second
argument models the optional `namespace_annotations` parameter, whose
Python-falsy values (absent or empty dict) return false under the
annotation strategy. -/
def is_namespace_monitored (f : NsFilter) (ns : String)
    (nsAnns : Option AnnMap) : Bool :=
  if f.strategy = "all" then true
  else if f.strategy = "list" then f.namespaces.contains ns
  else if f.strategy = "annotation" then
    match nsAnns with
    | none => false
    | some anns =>
      if anns = [] then false
      else dictGet anns f.annKey == some f.annValue
  else false

/-- The built-in `monitor_defaults` of config.py lines 169-181. -/
def defaultMonitorDefaults : PyDict :=
  [("type", .vStr "http"), ("method", .vStr "GET"), ("interval", .vInt 30),
   ("retry_interval", .vInt 30), ("request_timeout", .vInt 30),
   ("valid_status_codes", .vList ["200-299"])]

/-- The slice of the loaded configuration the handlers read. -/
structure OpConfig where
  nsFilter : NsFilter
  duplicateHandling : String
  monitorDefaults : PyDict
deriving DecidableEq, Repr

/-! ### Pydantic models (src/lunalytics/models.py)

Construction of a pydantic v1 model from keyword arguments either yields the
validated record or raises `ValidationError`; the latter is embedded as
`none`.  Field coercions the call sites can reach are modelled: `str`
fields accept ints, `int` fields accept decimal strings.  `MonitorUpdate.monitor_id`
is declared with alias `monitorId` and the model has no
`allow_population_by_field_name` config, so only the alias key populates it. -/

/-- The validated `MonitorCreate` payload (models.py lines 11-38). -/
structure MonitorCreateM where
  name : String
  url : String
  type : String
  method : String
  valid_status_codes : List String
  interval : Int
  retry_interval : Int
  request_timeout : Int
deriving DecidableEq, Repr

/-- The validated `MonitorUpdate` payload (models.py lines 41-62). -/
structure MonitorUpdateM where
  monitor_id : String
  name : String
  url : String
  type : String
  method : String
  valid_status_codes : List String
  interval : Int
  retry_interval : Int
  request_timeout : Int
deriving DecidableEq, Repr

/-- Pydantic v1 coercion to `str`. -/
def pyFieldStr (v : PyVal) : Option String :=
  match v with
  | .vStr s => some s
  | .vInt n => some (toString n)
  | .vList _ => none

/-- Pydantic v1 coercion to `int`. -/
def pyFieldInt (v : PyVal) : Option Int :=
  match v with
  | .vInt n => some n
  | .vStr s => parsePyInt s
  | .vList _ => none

/-- Pydantic v1 coercion to `List[str]`. -/
def pyFieldStrList (v : PyVal) : Option (List String) :=
  match v with
  | .vList l => some l
  | _ => none

/-- A `str` field with a default: absent keys take the default, present keys
must coerce. -/
def pyFieldStrD (kwargs : PyDict) (k dflt : String) : Option String :=
  match dictGet kwargs k with
  | none => some dflt
  | some v => pyFieldStr v

/-- An `int` field with a default. -/
def pyFieldIntD (kwargs : PyDict) (k : String) (dflt : Int) : Option Int :=
  match dictGet kwargs k with
  | none => some dflt
  | some v => pyFieldInt v

/-- A `List[str]` field with a default. -/
def pyFieldStrListD (kwargs : PyDict) (k : String) (dflt : List String) :
    Option (List String) :=
  match dictGet kwargs k with
  | none => some dflt
  | some v => pyFieldStrList v

/-- A required `str` field: a missing key raises `ValidationError`. -/
def pyFieldStrReq (kwargs : PyDict) (k : String) : Option String :=
  match dictGet kwargs k with
  | none => none
  | some v => pyFieldStr v

/-- The `^https?://` field regex together with the `validate_url` validator
of `MonitorCreate`. -/
def urlSchemeOk (u : String) : Bool :=
  "http://".toList.isPrefixOf u.toList || "https://".toList.isPrefixOf u.toList

/-- `MonitorCreate(**kwargs)` (models.py lines 11-38): required `name` and
`url`, field regexes, range bounds and the status-code validator. -/
def mkMonitorCreate (kwargs : PyDict) : Option MonitorCreateM := do
  let nm ← pyFieldStrReq kwargs "name"
  let u ← pyFieldStrReq kwargs "url"
  let ty ← pyFieldStrD kwargs "type" "http"
  let mthd ← pyFieldStrD kwargs "method" "GET"
  let codes ← pyFieldStrListD kwargs "valid_status_codes" ["200-299"]
  let iv ← pyFieldIntD kwargs "interval" 30
  let riv ← pyFieldIntD kwargs "retry_interval" 30
  let rto ← pyFieldIntD kwargs "request_timeout" 30
  if nm.length < 1 ∨ 255 < nm.length then none
  else if ¬ urlSchemeOk u then none
  else if ty ∉ ["http", "https", "tcp", "udp"] then none
  else if mthd ∉ valid_methods then none
  else if ¬ codes.all statusCodeOk then none
  else if iv < 1 ∨ 86400 < iv then none
  else if riv < 1 ∨ 86400 < riv then none
  else if rto < 1 ∨ 300 < rto then none
  else some ⟨nm, u, ty, mthd, codes, iv, riv, rto⟩

/-- `MonitorUpdate(**kwargs)` (models.py lines 41-62): like `MonitorCreate`
plus the required `monitor_id`, populated only through its alias
`monitorId` because the model lacks `allow_population_by_field_name`. -/
def mkMonitorUpdate (kwargs : PyDict) : Option MonitorUpdateM := do
  let mid ← pyFieldStrReq kwargs "monitorId"
  let nm ← pyFieldStrReq kwargs "name"
  let u ← pyFieldStrReq kwargs "url"
  let ty ← pyFieldStrD kwargs "type" "http"
  let mthd ← pyFieldStrD kwargs "method" "GET"
  let codes ← pyFieldStrListD kwargs "valid_status_codes" ["200-299"]
  let iv ← pyFieldIntD kwargs "interval" 30
  let riv ← pyFieldIntD kwargs "retry_interval" 30
  let rto ← pyFieldIntD kwargs "request_timeout" 30
  if nm.length < 1 ∨ 255 < nm.length then none
  else if ¬ urlSchemeOk u then none
  else if ty ∉ ["http", "https", "tcp", "udp"] then none
  else if mthd ∉ valid_methods then none
  else if ¬ codes.all statusCodeOk then none
  else if iv < 1 ∨ 86400 < iv then none
  else if riv < 1 ∨ 86400 < riv then none
  else if rto < 1 ∨ 300 < rto then none
  else some ⟨mid, nm, u, ty, mthd, codes, iv, riv, rto⟩

/-! ### Client failure classes (src/lunalytics/client.py,
src/lunalytics/exceptions.py) -/

/-- The failure classes an external call can raise: the
`LunalyticsAPIError` hierarchy plus the httpx transport failures
the client's retry decorators list. -/
inductive LunaErr where
  | authErr
  | notFoundErr
  | validationErr
  | rateLimitErr
  | serverErr
  | apiOtherErr
  | httpTimeout
  | httpConnect
  | httpRemoteProto
  | otherExc
deriving DecidableEq, Repr

/-- The `exceptions=(...)` tuple of the `async_retry` decorators on
`add_monitor`, `edit_monitor`, `delete_monitor` and `get_monitor`
(client.py lines 119-125 and the three identical copies). -/
def client_retry_exceptions (e : LunaErr) : Bool :=
  match e with
  | .serverErr | .rateLimitErr | .httpTimeout | .httpConnect
  | .httpRemoteProto => true
  | _ => false

/-- One call outcome: a Python return or a raised error. -/
inductive PyStep (α ε : Type) where
  | ok (v : α)
  | err (e : ε)
deriving DecidableEq, Repr

/-- `LunalyticsClient._handle_response` (client.py lines 62-117) keyed by the
HTTP status code. -/
def handle_response (statusCode : Nat) : PyStep Unit LunaErr :=
  if statusCode = 200 then .ok ()
  else if statusCode = 401 then .err .authErr
  else if statusCode = 404 then .err .notFoundErr
  else if statusCode = 422 then .err .validationErr
  else if statusCode = 429 then .err .rateLimitErr
  else if 500 ≤ statusCode ∧ statusCode < 600 then .err .serverErr
  else .err .apiOtherErr

/-! ### Retry engine (src/utils/retry.py)

`async_retry` is embedded as a fuel-indexed loop over an oracle of call
outcomes.  `rand` supplies the value `random.random()` returns before each
retried attempt; delays are exact rationals.  One unit of fuel is one
invocation of the wrapped operation, so running out of fuel observes a loop
that is still running (`pending`). -/

/-- How a run of the retry loop ends. -/
inductive RStatus (α ε : Type) where
  | ok (v : α)
  | exhausted (e : ε)
  | propagated (e : ε)
  | pending
deriving DecidableEq, Repr

/-- Observable trace of a run: its end status, the number of invocations of
the wrapped operation, and the slept delays in order. -/
structure RTrace (α ε : Type) where
  status : RStatus α ε
  calls : Nat
  sleeps : List ℚ
deriving DecidableEq, Repr

/-- Python `min` on two rationals, kernel-computable. -/
def ratMin (a b : ℚ) : ℚ := if a ≤ b then a else b

/-- The delay computed after failure number `attempt` (retry.py lines
60-66): a fixed 1 after the first failure, otherwise
`min(factor^(attempt-1), maxDelay)` scaled by `0.5 + rand * 0.5`. -/
def waitTime (factor maxDelay : ℚ) (attempt : Nat) (rand : ℚ) : ℚ :=
  if attempt = 1 then 1
  else ratMin (factor ^ (attempt - 1)) maxDelay * (1/2 + rand * (1/2))

/-- The `while True` body of `async_retry.wrapper` (retry.py lines 44-73),
started at `k` previous invocations; `outs j` is the outcome of invocation
`j` (0-based), so the `attempt` counter after a failure of invocation `k`
is `k + 1`.  Errors outside the `catches` tuple propagate; exhaustion is
checked before the sleep, as in the source. -/
def retryLoop {α ε : Type} (catches : ε → Bool) (maxAtt : Int)
    (factor maxDelay : ℚ) (rand : Nat → ℚ) (outs : Nat → PyStep α ε) :
    Nat → Nat → RTrace α ε
  | 0, _ => ⟨.pending, 0, []⟩
  | fuel + 1, k =>
    match outs k with
    | .ok v => ⟨.ok v, 1, []⟩
    | .err e =>
      if catches e then
        if maxAtt ≠ -1 ∧ maxAtt ≤ (k + 1 : Int) then ⟨.exhausted e, 1, []⟩
        else
          let rest := retryLoop catches maxAtt factor maxDelay rand outs fuel (k + 1)
          ⟨rest.status, rest.calls + 1,
            waitTime factor maxDelay (k + 1) (rand (k + 1)) :: rest.sleeps⟩
      else ⟨.propagated e, 1, []⟩

/-- A fresh run of the retry loop (attempt counter at 0). -/
def retryRun {α ε : Type} (catches : ε → Bool) (maxAtt : Int)
    (factor maxDelay : ℚ) (rand : Nat → ℚ) (outs : Nat → PyStep α ε)
    (fuel : Nat) : RTrace α ε :=
  retryLoop catches maxAtt factor maxDelay rand outs fuel 0

/-! ### Handlers (src/handlers/ingress.py, service.py, monitor_crd.py)

Each handler is embedded as a function of the loaded configuration, the
answers of the external monitor API (`ExtWorld`), the relevant listed
cluster resources, and the inbound event; its value records the external
API calls issued (in order) and the binding-store writes performed.
External mutating calls are modelled as succeeding; their failure handling
lives in the retry engine above.  A raised Python exception (notably a
pydantic `ValidationError` during payload construction) aborts the `try`
block, so the result then carries only the calls made up to that point. -/

/-- The answers of the external monitor API for one reconciliation:
whether `get_monitor` finds a given id, and the `monitorId` a successful
`add_monitor` returns. -/
structure ExtWorld where
  monitorExists : String → Bool
  createdId : String

/-- One call to the external monitor API. -/
inductive ExtCall where
  | getById (id : String)
  | create (p : MonitorCreateM)
  | update (p : MonitorUpdateM)
  | del (id : String)
deriving DecidableEq, Repr

/-- A Monitor CRD as listed by `_check_duplicate_monitor`: its name and
`spec.get('url')`. -/
structure ClusterCrd where
  name : String
  specUrl : Option String
deriving DecidableEq, Repr

/-- `_check_duplicate_monitor` (ingress.py lines 37-67 and service.py lines
36-66): the first listed Monitor CRD whose declared URL equals `url`. -/
def check_duplicate_monitor (url : String) (crds : List ClusterCrd) :
    Option String :=
  match crds.find? (fun m => m.specUrl == some url) with
  | some m => some m.name
  | none => none

/-- An annotation-driven resource as listed by
`_check_duplicate_annotations`. -/
structure AnnResource where
  name : String
  anns : AnnMap
deriving DecidableEq, Repr

/-- The listed Ingresses and Services of the namespace. -/
structure Cluster where
  ingresses : List AnnResource
  services : List AnnResource
deriving DecidableEq, Repr

/-- The resource kind and name `_check_duplicate_annotations` reports. -/
structure DupInfo where
  ty : String
  name : String
deriving DecidableEq, Repr

/-- The per-resource predicate of `_check_duplicate_annotations`
(monitor_crd.py lines 44-45 and 59-60): enabled annotation lowercases to
"true" and the url annotation equals the given URL. -/
def annDeclaresUrl (url : String) (r : AnnResource) : Bool :=
  (strLower ((dictGet r.anns kEnabled).getD "") == "true") &&
    (dictGet r.anns kUrl == some url)

/-- `_check_duplicate_annotations` (monitor_crd.py lines 27-73): first
matching Ingress, then first matching Service. -/
def check_duplicate_annotations (url : String) (cl : Cluster) :
    Option DupInfo :=
  match cl.ingresses.find? (annDeclaresUrl url) with
  | some r => some ⟨"ingress", r.name⟩
  | none =>
    match cl.services.find? (annDeclaresUrl url) with
    | some r => some ⟨"service", r.name⟩
    | none => none

/-- An Ingress create/update event as the handler sees it. -/
structure IngressEvent where
  spec : IngressSpec
  anns : AnnMap
  ns : String
  name : String

/-- A Service create/update event as the handler sees it. -/
structure ServiceEvent where
  spec : ServiceSpec
  anns : AnnMap
  ns : String
  name : String

/-- Result of an annotation-driven (Ingress/Service) reconciliation: the
external calls issued, the resource annotations after the event (the
binding store), and the Monitor CRD `_handle_duplicate_conflict` pushed
into the conflict state, if any. -/
structure AnnHandlerResult where
  calls : List ExtCall
  annsAfter : AnnMap
  crdConflictMarked : Option String
deriving DecidableEq, Repr

/-- The merged desired config an Ingress event produces (ingress.py lines
133-155): annotation extraction, then name and derived url, then the
configured defaults underneath. -/
def ingress_desired_config (cfg : OpConfig) (ev : IngressEvent)
    (url : String) : PyDict :=
  merge_with_defaults cfg.monitorDefaults
    (dictSet
      (dictSet (get_monitor_config_from_annotations ev.anns) "name"
        (.vStr (get_monitor_name ev.anns ev.name "Ingress")))
      "url" (.vStr url))

/-- The merged desired config a Service event produces (service.py lines
132-154). -/
def service_desired_config (cfg : OpConfig) (ev : ServiceEvent)
    (url : String) : PyDict :=
  merge_with_defaults cfg.monitorDefaults
    (dictSet
      (dictSet (get_monitor_config_from_annotations ev.anns) "name"
        (.vStr (get_monitor_name ev.anns ev.name "Service")))
      "url" (.vStr url))

/-- The keyword arguments of the `MonitorUpdate(...)` calls in all three
handlers: the merged config without its `url` key, plus the existing id
passed under the Python field name `monitor_id`. -/
def monitor_update_kwargs (monitorConfig : PyDict) (mid : String) : PyDict :=
  dictSet (dictDrop monitorConfig "url") "monitor_id" (.vStr mid)

/-- `handle_ingress_create_or_update` (ingress.py lines 106-208). -/
def handle_ingress_create_or_update (cfg : OpConfig) (w : ExtWorld)
    (crds : List ClusterCrd) (ev : IngressEvent) : AnnHandlerResult :=
  if is_namespace_monitored cfg.nsFilter ev.ns none then
    if is_monitoring_enabled ev.anns then
      match build_monitor_url (.ingress ev.spec) ev.name ev.ns
          (cfgGetStr (get_monitor_config_from_annotations ev.anns) "url") with
      | none => ⟨[], ev.anns, none⟩
      | some url =>
        let monitor_config := ingress_desired_config cfg ev url
        if validate_monitor_config monitor_config ≠ [] then ⟨[], ev.anns, none⟩
        else
          let dup :=
            if cfg.duplicateHandling = "annotation_priority" then
              check_duplicate_monitor url crds
            else none
          match optStrTruthy (get_monitor_id_from_annotations ev.anns) with
          | some mid =>
            if w.monitorExists mid then
              match mkMonitorUpdate (monitor_update_kwargs monitor_config mid) with
              | none => ⟨[.getById mid], ev.anns, dup⟩
              | some pu => ⟨[.getById mid, .update pu], ev.anns, dup⟩
            else
              match mkMonitorCreate monitor_config with
              | none => ⟨[.getById mid], ev.anns, dup⟩
              | some pc =>
                ⟨[.getById mid, .create pc],
                  dictUpdate ev.anns (create_monitor_id_ann w.createdId), dup⟩
          | none =>
            match mkMonitorCreate monitor_config with
            | none => ⟨[], ev.anns, dup⟩
            | some pc =>
              ⟨[.create pc],
                dictUpdate ev.anns (create_monitor_id_ann w.createdId), dup⟩
    else ⟨[], ev.anns, none⟩
  else ⟨[], ev.anns, none⟩

/-- `handle_service_create_or_update` (service.py lines 105-207). -/
def handle_service_create_or_update (cfg : OpConfig) (w : ExtWorld)
    (crds : List ClusterCrd) (ev : ServiceEvent) : AnnHandlerResult :=
  if is_namespace_monitored cfg.nsFilter ev.ns none then
    if is_monitoring_enabled ev.anns then
      match build_monitor_url (.service ev.spec) ev.name ev.ns
          (cfgGetStr (get_monitor_config_from_annotations ev.anns) "url") with
      | none => ⟨[], ev.anns, none⟩
      | some url =>
        let monitor_config := service_desired_config cfg ev url
        if validate_monitor_config monitor_config ≠ [] then ⟨[], ev.anns, none⟩
        else
          let dup :=
            if cfg.duplicateHandling = "annotation_priority" then
              check_duplicate_monitor url crds
            else none
          match optStrTruthy (get_monitor_id_from_annotations ev.anns) with
          | some mid =>
            if w.monitorExists mid then
              match mkMonitorUpdate (monitor_update_kwargs monitor_config mid) with
              | none => ⟨[.getById mid], ev.anns, dup⟩
              | some pu => ⟨[.getById mid, .update pu], ev.anns, dup⟩
            else
              match mkMonitorCreate monitor_config with
              | none => ⟨[.getById mid], ev.anns, dup⟩
              | some pc =>
                ⟨[.getById mid, .create pc],
                  dictUpdate ev.anns (create_monitor_id_ann w.createdId), dup⟩
          | none =>
            match mkMonitorCreate monitor_config with
            | none => ⟨[], ev.anns, dup⟩
            | some pc =>
              ⟨[.create pc],
                dictUpdate ev.anns (create_monitor_id_ann w.createdId), dup⟩
    else ⟨[], ev.anns, none⟩
  else ⟨[], ev.anns, none⟩

/-- The typed spec of a Monitor CRD event; schema validation upstream
guarantees the field types, so `spec.get(...)` reads are typed options. -/
structure CrdSpec where
  name : Option String
  url : Option String
  type : Option String
  method : Option String
  interval : Option Int
  retryInterval : Option Int
  requestTimeout : Option Int
  validStatusCodes : Option (List String)

/-- A Monitor CRD create/update event; `statusMonitorId` is
`status.get('monitorId')`. -/
structure CrdEvent where
  spec : CrdSpec
  ns : String
  name : String
  statusMonitorId : Option String

/-- One `_update_monitor_status` patch (monitor_crd.py lines 76-127); the
`monitorId` key is part of the body only when a truthy id is passed.  The
observed-statistics fields (`uptimePercentage`, `averageLatency`) and the
timestamp are not modelled. -/
structure StatusPatch where
  state : String
  message : String
  monitorId : Option String
deriving DecidableEq, Repr

/-- Result of a Monitor CRD reconciliation: the external calls issued and
the status patches written, in order. -/
structure CrdResult where
  calls : List ExtCall
  patches : List StatusPatch
deriving DecidableEq, Repr

/-- Stand-in for `str(e)` of the pydantic `ValidationError` interpolated
into the unexpected-error status message. -/
def pydanticErrStr : String := "ValidationError"

/-- The monitor config dict the CRD handler builds (monitor_crd.py lines
173-183), with the hard-coded per-field defaults. -/
def crd_monitor_config (s : CrdSpec) (url : String) : PyDict :=
  [("name", .vStr (s.name.getD "")),
   ("url", .vStr url),
   ("type", .vStr (s.type.getD "http")),
   ("method", .vStr (s.method.getD "GET")),
   ("interval", .vInt (s.interval.getD 30)),
   ("retry_interval", .vInt (s.retryInterval.getD 30)),
   ("request_timeout", .vInt (s.requestTimeout.getD 30)),
   ("valid_status_codes", .vList (s.validStatusCodes.getD ["200-299"]))]

/-- `handle_monitor_create_or_update` (monitor_crd.py lines 130-234).  A
pydantic `ValidationError` during payload construction is caught by the
outer `except Exception` branch, which writes an error status patch. -/
def handle_monitor_create_or_update (cfg : OpConfig) (w : ExtWorld)
    (cl : Cluster) (ev : CrdEvent) : CrdResult :=
  if is_namespace_monitored cfg.nsFilter ev.ns none then
    if ¬ truthyOptStr ev.spec.name then
      ⟨[], [⟨"error", "Missing required field: name", none⟩]⟩
    else if ¬ truthyOptStr ev.spec.url then
      ⟨[], [⟨"error", "Missing required field: url", none⟩]⟩
    else
      let url := ev.spec.url.getD ""
      let dup :=
        if cfg.duplicateHandling = "annotation_priority" then
          check_duplicate_annotations url cl
        else none
      match dup with
      | some info =>
        ⟨[], [⟨"conflict",
          "Conflict: " ++ strTitle info.ty ++
            " annotation takes precedence for URL " ++ url, none⟩]⟩
      | none =>
        let monitor_config := crd_monitor_config ev.spec url
        match optStrTruthy ev.statusMonitorId with
        | some mid =>
          if w.monitorExists mid then
            match mkMonitorUpdate (monitor_update_kwargs monitor_config mid) with
            | none =>
              ⟨[.getById mid],
                [⟨"error", "Unexpected error: " ++ pydanticErrStr, none⟩]⟩
            | some pu =>
              ⟨[.getById mid, .update pu],
                [⟨"active", "Monitor updated successfully",
                  optStrTruthy (some pu.monitor_id)⟩]⟩
          else
            match mkMonitorCreate monitor_config with
            | none =>
              ⟨[.getById mid],
                [⟨"error", "Unexpected error: " ++ pydanticErrStr, none⟩]⟩
            | some pc =>
              ⟨[.getById mid, .create pc],
                [⟨"active", "Monitor created successfully",
                  optStrTruthy (some w.createdId)⟩]⟩
        | none =>
          match mkMonitorCreate monitor_config with
          | none =>
            ⟨[], [⟨"error", "Unexpected error: " ++ pydanticErrStr, none⟩]⟩
          | some pc =>
            ⟨[.create pc],
              [⟨"active", "Monitor created successfully",
                optStrTruthy (some w.createdId)⟩]⟩
  else ⟨[], []⟩

/-- The delay a spec reader expects before attempt `n`: the claimed formula
`min(backoff_factor^(n-1), max_delay)` times some jitter factor in the
closed interval `[0.5, 1.0]`.  Stated from the words of the claim, for
comparison against the embedded loop. -/
def specClaimedDelay (factor maxDelay : ℚ) (n : Nat) (s : ℚ) : Prop :=
  ∃ j : ℚ, 1/2 ≤ j ∧ j ≤ 1 ∧ s = min (factor ^ (n - 1)) maxDelay * j

/-! ### Concrete instances used to evaluate the theorems -/

/-- Namespace filter with strategy `all`. -/
def exNsAll : NsFilter := ⟨"all", [], kEnabled, "true"⟩

/-- Namespace filter with strategy `annotation`. -/
def exNsAnn : NsFilter := ⟨"annotation", [], kEnabled, "true"⟩

/-- The default configuration: strategy `all`, `annotation_priority`. -/
def exCfg : OpConfig := ⟨exNsAll, "annotation_priority", defaultMonitorDefaults⟩

/-- A configuration whose namespace filter uses the annotation strategy. -/
def exCfgAnnFilter : OpConfig :=
  ⟨exNsAnn, "annotation_priority", defaultMonitorDefaults⟩

/-- External API in which exactly monitor "m1" exists and creates yield
"m9". -/
def exWorldBound : ExtWorld := ⟨fun i => i == "m1", "m9"⟩

/-- Annotations of an enabled Ingress bound to the existing monitor "m1". -/
def exAnnsBound : AnnMap :=
  [(kEnabled, "true"), (kUrl, "https://example.com/"), (kMonitorId, "m1")]

/-- An enabled Ingress event bound to the existing monitor "m1". -/
def exEvBound : IngressEvent := ⟨⟨[], []⟩, exAnnsBound, "default", "web"⟩

/-- An enabled Ingress event bound to the vanished monitor "mOld". -/
def exEvStale : IngressEvent :=
  ⟨⟨[], []⟩,
    [(kEnabled, "true"), (kUrl, "https://example.com/"), (kMonitorId, "mOld")],
    "default", "web"⟩

/-- An enabled Ingress event with no stored binding. -/
def exEvFresh : IngressEvent :=
  ⟨⟨[], []⟩, [(kEnabled, "true"), (kUrl, "https://example.com/")],
    "default", "web"⟩

/-- An enabled Ingress event whose interval annotation fails validation. -/
def exEvBadInterval : IngressEvent :=
  ⟨⟨[], []⟩,
    [(kEnabled, "true"), (kUrl, "https://example.com/"), (kInterval, "0")],
    "default", "web"⟩

/-- An enabled Service event whose interval annotation fails validation. -/
def exSvcEvBadInterval : ServiceEvent :=
  ⟨⟨[⟨some 8080, none, some "TCP"⟩]⟩,
    [(kEnabled, "true"), (kInterval, "0")], "default", "api"⟩

/-- A plain enabled Service event. -/
def exSvcEv : ServiceEvent :=
  ⟨⟨[⟨some 8080, none, some "TCP"⟩]⟩, [(kEnabled, "true")], "default", "api"⟩

/-- A listed Monitor CRD declaring the example URL. -/
def exCrd : ClusterCrd := ⟨"crd1", some "https://example.com/"⟩

/-- A Monitor CRD event declaring the example URL. -/
def exCrdEv : CrdEvent :=
  ⟨⟨some "mymon", some "https://example.com/", none, none, none, none, none,
      none⟩, "default", "mymon", none⟩

/-- A Monitor CRD event missing its name. -/
def exCrdEvNoName : CrdEvent :=
  ⟨⟨none, some "https://example.com/", none, none, none, none, none, none⟩,
    "default", "m2", none⟩

/-- A Monitor CRD event missing its url. -/
def exCrdEvNoUrl : CrdEvent :=
  ⟨⟨some "m3", none, none, none, none, none, none, none⟩, "default", "m3",
    none⟩

/-- A listed Ingress whose annotations declare the example URL. -/
def exIngressRes : AnnResource :=
  ⟨"web", [(kEnabled, "true"), (kUrl, "https://example.com/")]⟩

/-- A cluster with one annotation-declaring Ingress and no Services. -/
def exCluster : Cluster := ⟨[exIngressRes], []⟩

/-- The create payload the example Ingress events produce. -/
def exPayload : MonitorCreateM :=
  ⟨"Ingress/web", "https://example.com/", "http", "GET", ["200-299"], 30, 30,
    30⟩

/-- An operation that always fails with a retryable unit error. -/
def exFailOuts : Nat → PyStep Unit Unit := fun _ => .err ()

/-- An operation that always fails with an authentication error. -/
def exAuthOuts : Nat → PyStep Unit LunaErr := fun _ => .err .authErr

/-- An operation that always succeeds. -/
def exOkOuts : Nat → PyStep Unit Unit := fun _ => .ok ()

/-- A jitter oracle that always draws 0. -/
def exRandZero : Nat → ℚ := fun _ => 0

/-- A catch set containing the unit error. -/
def exCatchAll : Unit → Bool := fun _ => true

/-! ### Helper lemmas -/

theorem dictGet_dictSet {α : Type} (d : List (String × α)) (k : String)
    (v : α) : dictGet (dictSet d k v) k = some v := by
  induction d with
  | nil => simp [dictSet, dictGet]
  | cons kv rest ih =>
    obtain ⟨k1, v1⟩ := kv
    by_cases h : k1 = k
    · simp [dictSet, dictGet, h]
    · simp [dictSet, dictGet, h, ih]

theorem retryLoop_step_cont {α ε : Type} {catches : ε → Bool} {maxAtt : Int}
    {f d : ℚ} {rand : Nat → ℚ} {outs : Nat → PyStep α ε} {fuel k : Nat}
    {e : ε} (h : outs k = .err e) (hc : catches e = true)
    (hstop : ¬ (maxAtt ≠ -1 ∧ maxAtt ≤ (k + 1 : Int))) :
    retryLoop catches maxAtt f d rand outs (fuel + 1) k =
      ⟨(retryLoop catches maxAtt f d rand outs fuel (k + 1)).status,
        (retryLoop catches maxAtt f d rand outs fuel (k + 1)).calls + 1,
        waitTime f d (k + 1) (rand (k + 1)) ::
          (retryLoop catches maxAtt f d rand outs fuel (k + 1)).sleeps⟩ := by
  simp [retryLoop, h, hc, hstop]

theorem retryLoop_step_stop {α ε : Type} {catches : ε → Bool} {maxAtt : Int}
    {f d : ℚ} {rand : Nat → ℚ} {outs : Nat → PyStep α ε} {fuel k : Nat}
    {e : ε} (h : outs k = .err e) (hc : catches e = true)
    (hstop : maxAtt ≠ -1 ∧ maxAtt ≤ (k + 1 : Int)) :
    retryLoop catches maxAtt f d rand outs (fuel + 1) k =
      ⟨.exhausted e, 1, []⟩ := by
  simp [retryLoop, h, hc, hstop]

/-! ### Claim theorems -/

/-- C8: for every Ingress spec whose first rule carries a non-empty host
and at least one HTTP path, the derived URL is protocol://host/path with
the first path (defaulting to "/") and protocol https iff any TLS block is
declared; for every Service spec whose first port carries a non-zero port
number, the derived URL is the in-cluster DNS form with the first port and
protocol https iff the lowercased port name contains "https", "ssl" or
"tls". -/
theorem C8_url_derivation :
    (∀ (s : IngressSpec) (r : IngressRule) (rs : List IngressRule)
        (h : String) (p : HttpPath) (ps : List HttpPath),
        s.rules = r :: rs → r.host = some h → h ≠ "" → r.httpPaths = p :: ps →
        build_ingress_url s =
          some ((if s.tls = [] then "http" else "https") ++ "://" ++ h ++
            p.path.getD "/")) ∧
    (∀ (s : ServiceSpec) (svc ns : String) (p : ServicePort)
        (ps : List ServicePort) (n : Int),
        s.ports = p :: ps → p.port = some n → n ≠ 0 →
        build_service_url s svc ns =
          some ((if strContainsSub (strLower (p.portName.getD "")) "https" ||
                    strContainsSub (strLower (p.portName.getD "")) "ssl" ||
                    strContainsSub (strLower (p.portName.getD "")) "tls"
                  then "https" else "http") ++ "://" ++ svc ++ "." ++ ns ++
            ".svc.cluster.local:" ++ toString n ++ "/")) := by
  constructor
  · intro s r rs h p ps hrules hhost hne hpaths
    simp only [build_ingress_url, hrules, hhost, hpaths, if_neg hne]
    cases htls : s.tls with
    | nil => simp
    | cons a l => simp
  · intro s svc ns p ps n hports hport hne
    simp only [build_service_url, hports, hport, if_neg hne]
    cases hc : (strContainsSub (strLower (p.portName.getD "")) "https" ||
        strContainsSub (strLower (p.portName.getD "")) "ssl" ||
        strContainsSub (strLower (p.portName.getD "")) "tls") with
    | true => simp [hc]
    | false =>
      simp only [hc, Bool.false_eq_true, if_false]
      split <;> rfl

/-- C8 witness: the spec's own derivation examples evaluated through the
theorem. -/
theorem C8_witness :
    build_ingress_url ⟨[⟨some "example.com", [⟨some "/healthz"⟩]⟩], []⟩ =
      some "http://example.com/healthz" ∧
    build_service_url ⟨[⟨some 8080, none, some "TCP"⟩]⟩ "api" "prod" =
      some "http://api.prod.svc.cluster.local:8080/" := by
  constructor
  · exact (C8_url_derivation.1 ⟨[⟨some "example.com", [⟨some "/healthz"⟩]⟩], []⟩
      ⟨some "example.com", [⟨some "/healthz"⟩]⟩ [] "example.com"
      ⟨some "/healthz"⟩ [] rfl rfl (by decide) rfl).trans (by decide)
  · exact (C8_url_derivation.2 ⟨[⟨some 8080, none, some "TCP"⟩]⟩ "api" "prod"
      ⟨some 8080, none, some "TCP"⟩ [] 8080 rfl rfl (by decide)).trans
      (by decide)

/-- C7: the retryable tuple of the client call sites is exactly
server-error, rate-limit and the transient httpx failures; authentication,
not-found and backend-validation responses classify outside it; and any
error outside the tuple propagates out of the retry loop after a single
invocation with no sleep. -/
theorem C7_structural_errors_not_retried :
    (∀ e : LunaErr, client_retry_exceptions e = true ↔
        (e = .serverErr ∨ e = .rateLimitErr ∨ e = .httpTimeout ∨
          e = .httpConnect ∨ e = .httpRemoteProto)) ∧
    (∀ statusCode : Nat,
        statusCode = 401 ∨ statusCode = 404 ∨ statusCode = 422 →
        ∃ e, handle_response statusCode = PyStep.err e ∧
          (e = .authErr ∨ e = .notFoundErr ∨ e = .validationErr) ∧
          client_retry_exceptions e = false) ∧
    (∀ (α : Type) (maxAtt : Int) (f d : ℚ) (rand : Nat → ℚ)
        (outs : Nat → PyStep α LunaErr) (fuel k : Nat) (e : LunaErr),
        outs k = .err e → client_retry_exceptions e = false →
        retryLoop client_retry_exceptions maxAtt f d rand outs (fuel + 1) k =
          ⟨.propagated e, 1, []⟩) := by
  refine ⟨?_, ?_, ?_⟩
  · intro e
    cases e <;> simp [client_retry_exceptions]
  · intro statusCode hs
    rcases hs with h | h | h
    · exact ⟨.authErr, by rw [h]; decide, by decide, by decide⟩
    · exact ⟨.notFoundErr, by rw [h]; decide, by decide, by decide⟩
    · exact ⟨.validationErr, by rw [h]; decide, by decide, by decide⟩
  · intro α maxAtt f d rand outs fuel k e h hc
    simp [retryLoop, h, hc]

/-- C7 witness: an authentication failure on the first call propagates
after one invocation with no sleep. -/
theorem C7_witness :
    (∃ e, handle_response 401 = PyStep.err e ∧
      (e = .authErr ∨ e = .notFoundErr ∨ e = .validationErr) ∧
      client_retry_exceptions e = false) ∧
    retryLoop client_retry_exceptions 3 2 300 exRandZero exAuthOuts (4 + 1) 0 =
      ⟨.propagated .authErr, 1, []⟩ :=
  ⟨C7_structural_errors_not_retried.2.1 401 (Or.inl rfl),
    C7_structural_errors_not_retried.2.2 Unit 3 2 300 exRandZero exAuthOuts
      4 0 .authErr rfl rfl⟩

/-- C10: the wrapped operation is always invoked once before any
exhaustion check (a first-call success returns for every max_attempts);
max_attempts 0 and 1 produce identical loops; and under either, a single
retryable failure exhausts immediately after one invocation with no delay
slept. -/
theorem C10_first_invocation_and_zero_one :
    (∀ (α ε : Type) (catches : ε → Bool) (maxAtt : Int) (f d : ℚ)
        (rand : Nat → ℚ) (outs : Nat → PyStep α ε) (fuel k : Nat) (v : α),
        outs k = .ok v →
        retryLoop catches maxAtt f d rand outs (fuel + 1) k =
          ⟨.ok v, 1, []⟩) ∧
    (∀ (α ε : Type) (catches : ε → Bool) (f d : ℚ) (rand : Nat → ℚ)
        (outs : Nat → PyStep α ε) (fuel k : Nat),
        retryLoop catches 0 f d rand outs fuel k =
          retryLoop catches 1 f d rand outs fuel k) ∧
    (∀ (α ε : Type) (catches : ε → Bool) (f d : ℚ) (rand : Nat → ℚ)
        (outs : Nat → PyStep α ε) (fuel k : Nat) (e : ε),
        outs k = .err e → catches e = true →
        retryLoop catches 0 f d rand outs (fuel + 1) k =
          ⟨.exhausted e, 1, []⟩) := by
  refine ⟨?_, ?_, ?_⟩
  · intro α ε catches maxAtt f d rand outs fuel k v h
    simp [retryLoop, h]
  · intro α ε catches f d rand outs fuel k
    cases fuel with
    | zero => rfl
    | succ m =>
      cases houts : outs k with
      | ok v => simp [retryLoop, houts]
      | err e =>
        cases hc : catches e with
        | false => simp [retryLoop, houts, hc]
        | true =>
          rw [retryLoop_step_stop houts hc (by constructor <;> omega),
            retryLoop_step_stop houts hc (by constructor <;> omega)]
  · intro α ε catches f d rand outs fuel k e h hc
    exact retryLoop_step_stop h hc (by constructor <;> omega)

/-- C10 witness: with max_attempts 0 and 1, the always-failing operation is
invoked exactly once and exhausts with no sleep, and a first-call success
returns even with max_attempts 0. -/
theorem C10_witness :
    retryLoop exCatchAll 0 2 300 exRandZero exFailOuts (3 + 1) 0 =
      ⟨.exhausted (), 1, []⟩ ∧
    retryLoop exCatchAll 0 2 300 exRandZero exFailOuts 4 0 =
      retryLoop exCatchAll 1 2 300 exRandZero exFailOuts 4 0 ∧
    retryLoop exCatchAll 0 2 300 exRandZero exOkOuts (3 + 1) 0 =
      ⟨.ok (), 1, []⟩ :=
  ⟨C10_first_invocation_and_zero_one.2.2 Unit Unit exCatchAll 2 300 exRandZero
      exFailOuts 3 0 () rfl rfl,
    C10_first_invocation_and_zero_one.2.1 Unit Unit exCatchAll 2 300
      exRandZero exFailOuts 4 0,
    C10_first_invocation_and_zero_one.1 Unit Unit exCatchAll 0 2 300
      exRandZero exOkOuts 3 0 () rfl⟩

theorem retryLoop_all_fail_pending {α ε : Type} {catches : ε → Bool}
    {f d : ℚ} {rand : Nat → ℚ} {outs : Nat → PyStep α ε} {es : Nat → ε}
    (houts : ∀ j, outs j = .err (es j))
    (hcatch : ∀ j, catches (es j) = true) :
    ∀ fuel k, retryLoop catches (-1) f d rand outs fuel k =
      ⟨.pending, fuel,
        (List.range fuel).map
          (fun i => waitTime f d (k + 1 + i) (rand (k + 1 + i)))⟩ := by
  intro fuel
  induction fuel with
  | zero => intro k; rfl
  | succ m ih =>
    intro k
    rw [retryLoop_step_cont (houts k) (hcatch k) (by omega), ih (k + 1)]
    refine congrArg (RTrace.mk .pending (m + 1)) ?_
    rw [List.range_succ_eq_map, List.map_cons, List.map_map]
    refine congrArg₂ List.cons (by simp) ?_
    refine congrArg (fun g => List.map g (List.range m)) ?_
    funext i
    have e1 : k + 1 + (i + 1) = k + 1 + 1 + i := by omega
    simp [Function.comp, e1]

/-- C6: with max_attempts 3, three consecutive retryable failures end the
loop in the retry-exhausted state carrying the last error, after exactly
three invocations; with max_attempts -1 the same failures never end the
loop: every amount of fuel is consumed by further invocations with the
run still pending. -/
theorem C6_retry_termination :
    (∀ (α ε : Type) (catches : ε → Bool) (f d : ℚ) (rand : Nat → ℚ)
        (outs : Nat → PyStep α ε) (es : Nat → ε),
        (∀ j, j < 3 → outs j = .err (es j)) →
        (∀ j, j < 3 → catches (es j) = true) →
        ∀ fuel, 3 ≤ fuel →
          (retryRun catches 3 f d rand outs fuel).status =
            .exhausted (es 2) ∧
          (retryRun catches 3 f d rand outs fuel).calls = 3) ∧
    (∀ (α ε : Type) (catches : ε → Bool) (f d : ℚ) (rand : Nat → ℚ)
        (outs : Nat → PyStep α ε) (es : Nat → ε),
        (∀ j, outs j = .err (es j)) → (∀ j, catches (es j) = true) →
        ∀ fuel,
          (retryRun catches (-1) f d rand outs fuel).status = .pending ∧
          (retryRun catches (-1) f d rand outs fuel).calls = fuel) := by
  constructor
  · intro α ε catches f d rand outs es houts hcatch fuel hfuel
    obtain ⟨m, rfl⟩ : ∃ m, fuel = m + 3 := ⟨fuel - 3, by omega⟩
    have key : retryLoop catches 3 f d rand outs (m + 3) 0 =
        ⟨.exhausted (es 2), 3,
          [waitTime f d 1 (rand 1), waitTime f d 2 (rand 2)]⟩ := by
      rw [show m + 3 = (m + 2) + 1 from rfl,
        retryLoop_step_cont (houts 0 (by omega)) (hcatch 0 (by omega))
          (by omega),
        show m + 2 = (m + 1) + 1 from rfl,
        retryLoop_step_cont (houts 1 (by omega)) (hcatch 1 (by omega))
          (by omega),
        retryLoop_step_stop (houts 2 (by omega)) (hcatch 2 (by omega))
          (by constructor <;> omega)]
    rw [retryRun, key]
    exact ⟨rfl, rfl⟩
  · intro α ε catches f d rand outs es houts hcatch fuel
    rw [retryRun, retryLoop_all_fail_pending houts hcatch fuel 0]
    exact ⟨rfl, rfl⟩

/-- C6 witness: the always-failing unit operation at max_attempts 3 and
-1. -/
theorem C6_witness :
    ((retryRun exCatchAll 3 2 300 exRandZero exFailOuts 7).status =
        .exhausted () ∧
      (retryRun exCatchAll 3 2 300 exRandZero exFailOuts 7).calls = 3) ∧
    ((retryRun exCatchAll (-1) 2 300 exRandZero exFailOuts 7).status =
        .pending ∧
      (retryRun exCatchAll (-1) 2 300 exRandZero exFailOuts 7).calls = 7) :=
  ⟨C6_retry_termination.1 Unit Unit exCatchAll 2 300 exRandZero exFailOuts
      (fun _ => ()) (fun _ _ => rfl) (fun _ _ => rfl) 7 (by omega),
    C6_retry_termination.2 Unit Unit exCatchAll 2 300 exRandZero exFailOuts
      (fun _ => ()) (fun _ => rfl) (fun _ => rfl) 7⟩

/-- C2 counterexample: in an unbounded all-failing run with backoff factor
2, max delay 300 and jitter draw 0, the delay slept before attempt 3 is 1,
but the claimed formula min(factor^(3-1), max_delay) scaled by any jitter
factor in [0.5, 1.0] cannot equal 1. -/
theorem C2_counterexample :
    ((retryRun exCatchAll (-1) 2 300 exRandZero exFailOuts 5).sleeps)[1]? =
      some 1 ∧
    ¬ specClaimedDelay 2 300 3 1 := by
  constructor
  · rw [retryRun,
      @retryLoop_all_fail_pending Unit Unit exCatchAll 2 300 exRandZero
        exFailOuts (fun _ => ()) (fun _ => rfl) (fun _ => rfl) 5 0]
    show ((List.range 5).map
        (fun i => waitTime 2 300 (0 + 1 + i) (exRandZero (0 + 1 + i))))[1]? =
      some 1
    rw [List.getElem?_map, List.getElem?_range (by omega : 1 < 5)]
    simp only [Option.map_some']
    rw [show (0 : Nat) + 1 + 1 = 2 from rfl]
    rw [waitTime, if_neg (by omega : ¬ (2 = 1))]
    rw [ratMin, if_pos (by norm_num : (2 : ℚ) ^ (2 - 1) ≤ 300)]
    norm_num [exRandZero]
  · rintro ⟨j, hj1, hj2, hj⟩
    have hmin : min ((2 : ℚ) ^ (3 - 1)) 300 = 4 := by norm_num
    rw [hmin] at hj
    linarith

/-- C2 amended: in an all-failing retried run, the delay slept before
attempt n (n at least 3) is min(backoff_factor^(n-2), max_delay) scaled by
the jitter factor 0.5 + 0.5*rand, which lies in the closed interval
[0.5, 1.0] whenever the uniform draw lies in [0, 1); the wait after the
first failure (before attempt 2) is exactly 1 time unit. -/
theorem C2_amended_backoff :
    ∀ (α ε : Type) (catches : ε → Bool) (f d : ℚ) (rand : Nat → ℚ)
      (outs : Nat → PyStep α ε) (es : Nat → ε),
      (∀ j, outs j = .err (es j)) → (∀ j, catches (es j) = true) →
      ∀ n fuel : Nat, 3 ≤ n → n ≤ fuel + 1 →
        0 ≤ rand (n - 1) → rand (n - 1) < 1 →
        ((retryRun catches (-1) f d rand outs fuel).sleeps)[n - 2]? =
          some (ratMin (f ^ (n - 2)) d * (1/2 + rand (n - 1) * (1/2))) ∧
        1/2 ≤ 1/2 + rand (n - 1) * (1/2) ∧
        1/2 + rand (n - 1) * (1/2) ≤ 1 ∧
        ((retryRun catches (-1) f d rand outs fuel).sleeps)[0]? = some 1 := by
  intro α ε catches f d rand outs es houts hcatch n fuel hn hfuel hr0 hr1
  rw [retryRun, retryLoop_all_fail_pending houts hcatch fuel 0]
  refine ⟨?_, by linarith, by linarith, ?_⟩
  · show ((List.range fuel).map
        (fun i => waitTime f d (0 + 1 + i) (rand (0 + 1 + i))))[n - 2]? =
      some (ratMin (f ^ (n - 2)) d * (1/2 + rand (n - 1) * (1/2)))
    rw [List.getElem?_map, List.getElem?_range (by omega : n - 2 < fuel)]
    simp only [Option.map_some']
    rw [show 0 + 1 + (n - 2) = n - 1 from by omega]
    rw [waitTime, if_neg (by omega : ¬ (n - 1 = 1))]
    rw [show n - 1 - 1 = n - 2 from by omega]
  · show ((List.range fuel).map
        (fun i => waitTime f d (0 + 1 + i) (rand (0 + 1 + i))))[0]? =
      some 1
    rw [List.getElem?_map, List.getElem?_range (by omega : 0 < fuel)]
    simp only [Option.map_some']
    rw [show 0 + 1 + 0 = 1 from by omega]
    rw [waitTime, if_pos rfl]

/-- C2 amended witness: the unbounded all-failing run with factor 2, max
delay 300 and zero jitter draws, observed at attempt 3. -/
theorem C2_amended_witness :
    ((retryRun exCatchAll (-1) 2 300 exRandZero exFailOuts 5).sleeps)[3 - 2]? =
      some (ratMin ((2 : ℚ) ^ (3 - 2)) 300 * (1/2 + exRandZero (3 - 1) * (1/2))) ∧
    1/2 ≤ 1/2 + exRandZero (3 - 1) * (1/2) ∧
    1/2 + exRandZero (3 - 1) * (1/2) ≤ 1 ∧
    ((retryRun exCatchAll (-1) 2 300 exRandZero exFailOuts 5).sleeps)[0]? =
      some 1 :=
  C2_amended_backoff Unit Unit exCatchAll 2 300 exRandZero exFailOuts
    (fun _ => ()) (fun _ => rfl) (fun _ => rfl) 3 5 (by omega) (by omega)
    (by norm_num [exRandZero]) (by norm_num [exRandZero])

/-- C1 (failing-input evaluation): on a second pass over an Ingress whose
stored binding "m1" still exists externally, the handler issues only the
get-by-id call and no update call, because `MonitorUpdate` is constructed
without its required `url` field (stripped by the call site) and with the
id under the field name `monitor_id` that the alias-only model does not
accept, so payload construction raises before `edit_monitor` is reached;
the stored monitor id is unchanged. -/
theorem C1_second_pass_issues_no_update :
    handle_ingress_create_or_update exCfg exWorldBound [] exEvBound =
      ⟨[ExtCall.getById "m1"], exAnnsBound, none⟩ ∧
    mkMonitorUpdate (monitor_update_kwargs
      (ingress_desired_config exCfg exEvBound "https://example.com/") "m1") =
      none ∧
    exWorldBound.monitorExists "m1" = true := by
  refine ⟨by decide, by decide, by decide⟩

/-- C9: when the configured namespace-filter strategy is `annotation`, the
filter applied to a namespace name without annotations returns false, and
every Ingress, Service and Monitor CRD create/update event is skipped
without external calls or binding writes, because each handler consults
the filter with the namespace name only. -/
theorem C9_annotation_strategy_skips_all (cfg : OpConfig)
    (hstrat : cfg.nsFilter.strategy = "annotation") :
    (∀ ns, is_namespace_monitored cfg.nsFilter ns none = false) ∧
    (∀ w crds ev, handle_ingress_create_or_update cfg w crds ev =
      ⟨[], ev.anns, none⟩) ∧
    (∀ w crds ev, handle_service_create_or_update cfg w crds ev =
      ⟨[], ev.anns, none⟩) ∧
    (∀ w cl ev, handle_monitor_create_or_update cfg w cl ev = ⟨[], []⟩) := by
  have hmon : ∀ ns, is_namespace_monitored cfg.nsFilter ns none = false := by
    intro ns
    rw [is_namespace_monitored, hstrat]
    rfl
  refine ⟨hmon, ?_, ?_, ?_⟩
  · intro w crds ev
    simp [handle_ingress_create_or_update, hmon]
  · intro w crds ev
    simp [handle_service_create_or_update, hmon]
  · intro w cl ev
    simp [handle_monitor_create_or_update, hmon]

/-- C9 witness: the annotation-strategy configuration evaluated on concrete
events of all three kinds. -/
theorem C9_witness :
    is_namespace_monitored exCfgAnnFilter.nsFilter "default" none = false ∧
    handle_ingress_create_or_update exCfgAnnFilter exWorldBound [] exEvFresh =
      ⟨[], exEvFresh.anns, none⟩ ∧
    handle_service_create_or_update exCfgAnnFilter exWorldBound []
      ⟨⟨[⟨some 8080, none, some "TCP"⟩]⟩, [(kEnabled, "true")], "default",
        "api"⟩ =
      ⟨[], [(kEnabled, "true")], none⟩ ∧
    handle_monitor_create_or_update exCfgAnnFilter exWorldBound ⟨[], []⟩
      exCrdEv = ⟨[], []⟩ :=
  ⟨(C9_annotation_strategy_skips_all exCfgAnnFilter rfl).1 "default",
    (C9_annotation_strategy_skips_all exCfgAnnFilter rfl).2.1 exWorldBound []
      exEvFresh,
    (C9_annotation_strategy_skips_all exCfgAnnFilter rfl).2.2.1 exWorldBound
      [] ⟨⟨[⟨some 8080, none, some "TCP"⟩]⟩, [(kEnabled, "true")], "default",
        "api"⟩,
    (C9_annotation_strategy_skips_all exCfgAnnFilter rfl).2.2.2 exWorldBound
      ⟨[], []⟩ exCrdEv⟩

/-- C5: a merged desired spec with a non-empty validation error list stops
the Ingress and Service reconciliations with no external call and no
annotation write (errors only logged); the Monitor CRD handler surfaces
its required-field failures as an error status patch, again with no
external call and no monitor-id write. -/
theorem C5_validation_aborts :
    (∀ (cfg : OpConfig) (w : ExtWorld) (crds : List ClusterCrd)
        (ev : IngressEvent) (url : String),
        is_namespace_monitored cfg.nsFilter ev.ns none = true →
        is_monitoring_enabled ev.anns = true →
        build_monitor_url (.ingress ev.spec) ev.name ev.ns
          (cfgGetStr (get_monitor_config_from_annotations ev.anns) "url") =
            some url →
        validate_monitor_config (ingress_desired_config cfg ev url) ≠ [] →
        handle_ingress_create_or_update cfg w crds ev =
          ⟨[], ev.anns, none⟩) ∧
    (∀ (cfg : OpConfig) (w : ExtWorld) (crds : List ClusterCrd)
        (ev : ServiceEvent) (url : String),
        is_namespace_monitored cfg.nsFilter ev.ns none = true →
        is_monitoring_enabled ev.anns = true →
        build_monitor_url (.service ev.spec) ev.name ev.ns
          (cfgGetStr (get_monitor_config_from_annotations ev.anns) "url") =
            some url →
        validate_monitor_config (service_desired_config cfg ev url) ≠ [] →
        handle_service_create_or_update cfg w crds ev =
          ⟨[], ev.anns, none⟩) ∧
    (∀ (cfg : OpConfig) (w : ExtWorld) (cl : Cluster) (ev : CrdEvent),
        is_namespace_monitored cfg.nsFilter ev.ns none = true →
        truthyOptStr ev.spec.name = false →
        handle_monitor_create_or_update cfg w cl ev =
          ⟨[], [⟨"error", "Missing required field: name", none⟩]⟩) ∧
    (∀ (cfg : OpConfig) (w : ExtWorld) (cl : Cluster) (ev : CrdEvent),
        is_namespace_monitored cfg.nsFilter ev.ns none = true →
        truthyOptStr ev.spec.name = true →
        truthyOptStr ev.spec.url = false →
        handle_monitor_create_or_update cfg w cl ev =
          ⟨[], [⟨"error", "Missing required field: url", none⟩]⟩) := by
  refine ⟨?_, ?_, ?_, ?_⟩
  · intro cfg w crds ev url hmon hen hurl hval
    simp only [handle_ingress_create_or_update, hmon, hen, hurl, if_true]
    rw [if_pos hval]
  · intro cfg w crds ev url hmon hen hurl hval
    simp only [handle_service_create_or_update, hmon, hen, hurl, if_true]
    rw [if_pos hval]
  · intro cfg w cl ev hmon hname
    simp [handle_monitor_create_or_update, hmon, hname]
  · intro cfg w cl ev hmon hname hurl
    simp [handle_monitor_create_or_update, hmon, hname, hurl]

/-- C5 witness: an interval annotation of "0" on an Ingress and on a
Service, and Monitor CRDs missing their name and url. -/
theorem C5_witness :
    handle_ingress_create_or_update exCfg exWorldBound [] exEvBadInterval =
      ⟨[], exEvBadInterval.anns, none⟩ ∧
    handle_service_create_or_update exCfg exWorldBound [] exSvcEvBadInterval =
      ⟨[], exSvcEvBadInterval.anns, none⟩ ∧
    handle_monitor_create_or_update exCfg exWorldBound ⟨[], []⟩
      exCrdEvNoName =
      ⟨[], [⟨"error", "Missing required field: name", none⟩]⟩ ∧
    handle_monitor_create_or_update exCfg exWorldBound ⟨[], []⟩
      exCrdEvNoUrl =
      ⟨[], [⟨"error", "Missing required field: url", none⟩]⟩ :=
  ⟨C5_validation_aborts.1 exCfg exWorldBound [] exEvBadInterval
      "https://example.com/" (by decide) (by decide) (by decide) (by decide),
    C5_validation_aborts.2.1 exCfg exWorldBound [] exSvcEvBadInterval
      "http://api.default.svc.cluster.local:8080/" (by decide) (by decide)
      (by decide) (by decide),
    C5_validation_aborts.2.2.1 exCfg exWorldBound ⟨[], []⟩ exCrdEvNoName
      (by decide) (by decide),
    C5_validation_aborts.2.2.2 exCfg exWorldBound ⟨[], []⟩ exCrdEvNoUrl
      (by decide) (by decide) (by decide)⟩

/-- C4: a create/update event on an Ingress whose stored binding is no
longer known to the external API issues the get-by-id probe and exactly
one create call, and overwrites the stored monitor-id annotation with the
newly assigned id. -/
theorem C4_recreate_on_missing :
    ∀ (cfg : OpConfig) (w : ExtWorld) (crds : List ClusterCrd)
      (ev : IngressEvent) (url mid : String) (pc : MonitorCreateM),
      is_namespace_monitored cfg.nsFilter ev.ns none = true →
      is_monitoring_enabled ev.anns = true →
      build_monitor_url (.ingress ev.spec) ev.name ev.ns
        (cfgGetStr (get_monitor_config_from_annotations ev.anns) "url") =
          some url →
      validate_monitor_config (ingress_desired_config cfg ev url) = [] →
      optStrTruthy (get_monitor_id_from_annotations ev.anns) = some mid →
      w.monitorExists mid = false →
      mkMonitorCreate (ingress_desired_config cfg ev url) = some pc →
      handle_ingress_create_or_update cfg w crds ev =
        ⟨[ExtCall.getById mid, ExtCall.create pc],
          dictUpdate ev.anns (create_monitor_id_ann w.createdId),
          if cfg.duplicateHandling = "annotation_priority" then
            check_duplicate_monitor url crds
          else none⟩ ∧
      dictGet (dictUpdate ev.anns (create_monitor_id_ann w.createdId))
        kMonitorId = some w.createdId := by
  intro cfg w crds ev url mid pc hmon hen hurl hval hbind hmiss hmk
  constructor
  · simp only [handle_ingress_create_or_update, hmon, hen, hurl, hval,
      hbind, hmiss, hmk, if_true]
    simp
  · simpa [dictUpdate, create_monitor_id_ann] using
      dictGet_dictSet ev.anns kMonitorId w.createdId

/-- C4 witness: the stale-bound example Ingress evaluated through the
theorem. -/
theorem C4_witness :
    handle_ingress_create_or_update exCfg exWorldBound [] exEvStale =
      ⟨[ExtCall.getById "mOld", ExtCall.create exPayload],
        dictUpdate exEvStale.anns (create_monitor_id_ann "m9"),
        if exCfg.duplicateHandling = "annotation_priority" then
          check_duplicate_monitor "https://example.com/" []
        else none⟩ ∧
    dictGet (dictUpdate exEvStale.anns (create_monitor_id_ann "m9"))
      kMonitorId = some "m9" :=
  C4_recreate_on_missing exCfg exWorldBound [] exEvStale
    "https://example.com/" "mOld" exPayload (by decide) (by decide)
    (by decide) (by decide) (by decide) (by decide) (by decide)

/-- C3: under the annotation_priority policy, a Monitor CRD event whose URL
is already declared by an enabled same-namespace Ingress annotation is
patched straight into the conflict state with no external call; an Ingress
event (with no stored binding) whose URL is also declared by a listed
Monitor CRD marks that CRD conflicted and itself proceeds: it issues the
create call and stores the new binding. -/
theorem C3_duplicate_precedence :
    (∀ (cfg : OpConfig) (w : ExtWorld) (cl : Cluster) (ev : CrdEvent)
        (U : String) (r : AnnResource),
        cfg.duplicateHandling = "annotation_priority" →
        is_namespace_monitored cfg.nsFilter ev.ns none = true →
        truthyOptStr ev.spec.name = true →
        ev.spec.url = some U → U ≠ "" →
        r ∈ cl.ingresses → annDeclaresUrl U r = true →
        ∃ info, check_duplicate_annotations U cl = some info ∧
          handle_monitor_create_or_update cfg w cl ev =
            ⟨[], [⟨"conflict", "Conflict: " ++ strTitle info.ty ++
              " annotation takes precedence for URL " ++ U, none⟩]⟩) ∧
    (∀ (cfg : OpConfig) (w : ExtWorld) (crds : List ClusterCrd)
        (ev : IngressEvent) (url : String) (pc : MonitorCreateM)
        (c : ClusterCrd),
        cfg.duplicateHandling = "annotation_priority" →
        is_namespace_monitored cfg.nsFilter ev.ns none = true →
        is_monitoring_enabled ev.anns = true →
        build_monitor_url (.ingress ev.spec) ev.name ev.ns
          (cfgGetStr (get_monitor_config_from_annotations ev.anns) "url") =
            some url →
        validate_monitor_config (ingress_desired_config cfg ev url) = [] →
        optStrTruthy (get_monitor_id_from_annotations ev.anns) = none →
        mkMonitorCreate (ingress_desired_config cfg ev url) = some pc →
        c ∈ crds → c.specUrl = some url →
        ∃ dname, check_duplicate_monitor url crds = some dname ∧
          handle_ingress_create_or_update cfg w crds ev =
            ⟨[ExtCall.create pc],
              dictUpdate ev.anns (create_monitor_id_ann w.createdId),
              some dname⟩) := by
  constructor
  · intro cfg w cl ev U r hpol hmon hname hurl hUne hr hpred
    obtain ⟨r0, hr0⟩ := Option.isSome_iff_exists.mp
      (List.find?_isSome.mpr ⟨r, hr, hpred⟩)
    refine ⟨⟨"ingress", r0.name⟩, ?_, ?_⟩
    · simp [check_duplicate_annotations, hr0]
    · have hurlT : truthyOptStr ev.spec.url = true := by
        simp [truthyOptStr, hurl, hUne]
      simp only [handle_monitor_create_or_update, hmon, hname, hurlT, hurl,
        Option.getD_some, hpol, if_true, check_duplicate_annotations, hr0]
      simp [truthyOptStr, hUne]
  · intro cfg w crds ev url pc c hpol hmon hen hurl hval hbind hmk hc hcu
    have hpred : (c.specUrl == some url) = true := by simp [hcu]
    have hfind : (crds.find? (fun m => m.specUrl == some url)).isSome :=
      List.find?_isSome.mpr ⟨c, hc, hpred⟩
    obtain ⟨c0, hc0⟩ := Option.isSome_iff_exists.mp hfind
    refine ⟨c0.name, ?_, ?_⟩
    · simp [check_duplicate_monitor, hc0]
    · simp only [handle_ingress_create_or_update, hmon, hen, hurl, hval,
        hbind, hmk, hpol, if_true, check_duplicate_monitor, hc0]
      simp

/-- C3 witness: the example Ingress/CRD pair declaring the same URL,
evaluated through both directions of the theorem. -/
theorem C3_witness :
    (∃ info,
      check_duplicate_annotations "https://example.com/" exCluster =
        some info ∧
      handle_monitor_create_or_update exCfg exWorldBound exCluster exCrdEv =
        ⟨[], [⟨"conflict", "Conflict: " ++ strTitle info.ty ++
          " annotation takes precedence for URL " ++ "https://example.com/",
          none⟩]⟩) ∧
    (∃ dname,
      check_duplicate_monitor "https://example.com/" [exCrd] = some dname ∧
      handle_ingress_create_or_update exCfg exWorldBound [exCrd] exEvFresh =
        ⟨[ExtCall.create exPayload],
          dictUpdate exEvFresh.anns (create_monitor_id_ann "m9"),
          some dname⟩) :=
  ⟨C3_duplicate_precedence.1 exCfg exWorldBound exCluster exCrdEv
      "https://example.com/" exIngressRes rfl (by decide) (by decide) rfl
      (by decide) (by decide) (by decide),
    C3_duplicate_precedence.2 exCfg exWorldBound [exCrd] exEvFresh
      "https://example.com/" exPayload exCrd rfl (by decide) (by decide)
      (by decide) (by decide) (by decide) (by decide) (by decide) rfl⟩
